import Mathlib

/-!
Verification of the hydrological core of the flood-risk dashboard
(`data_processing_pipeline.py`, class `HydrologicalSimulator`).

The four core operations are embedded shallowly:
* exact-arithmetic formulas (`calculate_runoff`, `calculate_water_level`,
  `classify_flood_risk`) over `ℚ`;
* the stochastic time-series (`simulate_flood_progression`) over `ℝ`
  (its rising phase raises to the power `1.5`), with the per-hour draws of
  `np.random.uniform(-0.1, 0.1)` made an explicit stream `noise : ℕ → ℝ`
  and the Python `ZeroDivisionError` at `duration_hours = 0` surfaced as an
  `Except.error`.
-/

/-- Embeds the dictionary lookup `curve_numbers.get(soil_type, 70)` over the
table `{'high': 85, 'medium': 70, 'low': 55}` in `calculate_runoff`. -/
def curve_number (soil_type : String) : ℚ :=
  if soil_type = "high" then 85
  else if soil_type = "medium" then 70
  else if soil_type = "low" then 55
  else 70

/-- Embeds `HydrologicalSimulator.calculate_runoff` (SCS curve-number method).
The Python code performs no input validation and has no raising path: it is a
total function of `(rainfall, soil_type)`. -/
def calculate_runoff (rainfall : ℚ) (soil_type : String) : ℚ :=
  let cn := curve_number soil_type
  let s := 25400 / cn - 254
  let ia := 0.2 * s
  if rainfall ≤ ia then 0
  else (rainfall - ia) ^ 2 / (rainfall - ia + s)

/-- Embeds `HydrologicalSimulator.calculate_water_level`. The volumetric
intermediate `volume_m3 = runoff * area_km2 * 1000` of the source is computed
and discarded, exactly as in the code. -/
def calculate_water_level (runoff : ℚ) (area_km2 : ℚ) : ℚ :=
  let _volume_m3 := runoff * area_km2 * 1000
  let avg_depth_m := runoff / 1000
  let terrain_factor : ℚ := 1.5
  avg_depth_m * terrain_factor

/-- Embeds `HydrologicalSimulator.classify_flood_risk`: a four-way `if/elif`
chain, each tier triggered by water level OR rainfall. -/
def classify_flood_risk (water_level : ℚ) (rainfall : ℚ) : String × ℕ :=
  if 4.0 < water_level ∨ 500 < rainfall then ("EXTREME", 4)
  else if 2.5 < water_level ∨ 350 < rainfall then ("HIGH", 3)
  else if 1.5 < water_level ∨ 200 < rainfall then ("MEDIUM", 2)
  else ("LOW", 1)

/-- Follows the spec's words for claim C1 (refinement target): CN from the
table with fallback 70, `S = 25400/CN - 254`, `Ia = 0.2*S`, result `0` when
`rainfall ≤ Ia` and `(rainfall - Ia)^2 / (rainfall - Ia + S)` otherwise. -/
def runoff_scs_spec (rainfall_mm : ℚ) (soil_class : String) : ℚ :=
  let CN : ℚ :=
    if soil_class = "high" then 85
    else if soil_class = "low" then 55
    else if soil_class = "medium" then 70
    else 70
  let S := 25400 / CN - 254
  let Ia := S / 5
  if rainfall_mm ≤ Ia then 0
  else (rainfall_mm - Ia) ^ 2 / (rainfall_mm - Ia + S)

/-- The curve number is always one of the three table entries (the fallback
coincides with the `medium` entry). -/
lemma curve_number_cases (soil_type : String) :
    curve_number soil_type = 85 ∨ curve_number soil_type = 70 ∨
      curve_number soil_type = 55 := by
  unfold curve_number
  split_ifs <;> simp

/-- The potential maximum retention `S = 25400/CN - 254` is positive for every
soil class (every curve number in the table is below 100). -/
lemma retention_pos (soil_type : String) :
    0 < 25400 / curve_number soil_type - 254 := by
  rcases curve_number_cases soil_type with h | h | h <;> rw [h] <;> norm_num

/-- Embeds the loop body of `HydrologicalSimulator.simulate_flood_progression`
for one hour: progress `hour / duration_hours`, rising phase
`(rainfall/100) * (progress/0.7) ** 1.5` while `progress < 0.7`, recession
phase `(rainfall/100) * (1 - recession_factor) ** 2` afterwards, multiplicative
jitter `level += level * noise(hour)`, then the clamp `max(0, level)`. -/
noncomputable def flood_level_at (rainfall : ℝ) (duration_hours : ℤ)
    (noise : ℕ → ℝ) (hour : ℕ) : ℝ :=
  let progress : ℝ := (hour : ℝ) / (duration_hours : ℝ)
  let peak_time : ℝ := 0.7
  let level : ℝ :=
    if progress < peak_time then
      (rainfall / 100) * (progress / peak_time) ^ (1.5 : ℝ)
    else
      let recession_factor := (progress - peak_time) / (1 - peak_time)
      (rainfall / 100) * (1 - recession_factor) ^ 2
  let perturbed := level + level * noise hour
  max 0 perturbed

/-- The list `water_levels` built by the loop
`for hour in range(duration_hours + 1)`. -/
noncomputable def progression_levels (rainfall : ℝ) (duration_hours : ℤ)
    (noise : ℕ → ℝ) : List ℝ :=
  (List.range (duration_hours + 1).toNat).map
    (flood_level_at rainfall duration_hours noise)

/-- Embeds `HydrologicalSimulator.simulate_flood_progression`. The ambient
draws of `np.random.uniform(-0.1, 0.1)` are the explicit stream `noise`; the
function performs no input validation, and its only failure mode is Python's
`ZeroDivisionError` from `hour / duration_hours` when `duration_hours = 0`
(for negative durations `range(duration_hours + 1)` is empty and no division
is executed). -/
noncomputable def simulate_flood_progression (rainfall : ℝ)
    (duration_hours : ℤ) (noise : ℕ → ℝ) : Except String (List ℝ) :=
  if duration_hours = 0 then Except.error "ZeroDivisionError"
  else Except.ok (progression_levels rainfall duration_hours noise)

/-- **C1.** For every `rainfall_mm ≥ 0` and every soil-class string,
`calculate_runoff` returns exactly the SCS value described by the spec: CN
from the table `{high → 85, medium → 70, low → 55}` with unrecognized strings
resolving to 70, `S = 25400/CN - 254`, `Ia = 0.2*S`, result `0` when
`rainfall ≤ Ia` and `(rainfall - Ia)^2 / (rainfall - Ia + S)` otherwise. -/
theorem calculate_runoff_eq_scs_spec (rainfall : ℚ) (soil_class : String)
    (h : 0 ≤ rainfall) :
    calculate_runoff rainfall soil_class = runoff_scs_spec rainfall soil_class := by
  by_cases h1 : soil_class = "high" <;>
    by_cases h2 : soil_class = "medium" <;>
      by_cases h3 : soil_class = "low" <;>
        simp_all [calculate_runoff, runoff_scs_spec, curve_number] <;>
          norm_num

/-- Witness for C1 at the spec's own end-to-end example input. -/
theorem calculate_runoff_eq_scs_spec_w :
    calculate_runoff 450 "medium" = runoff_scs_spec 450 "medium" :=
  calculate_runoff_eq_scs_spec 450 "medium" (by norm_num)

/-- **C4.** `calculate_water_level` returns exactly `(runoff / 1000) * 1.5`,
and the result does not depend on the catchment area: any two positive areas
give equal depths for the same runoff. -/
theorem calculate_water_level_eq (runoff area_km2 : ℚ) (h1 : 0 ≤ runoff)
    (h2 : 0 < area_km2) :
    calculate_water_level runoff area_km2 = runoff / 1000 * 1.5 ∧
      ∀ a2 : ℚ, 0 < a2 →
        calculate_water_level runoff area_km2 = calculate_water_level runoff a2 := by
  constructor
  · rfl
  · intro a2 _
    rfl

/-- Witness for C4 at runoff 341, areas 100 and 250. -/
theorem calculate_water_level_eq_w :
    calculate_water_level 341 100 = 341 / 1000 * 1.5 ∧
      calculate_water_level 341 100 = calculate_water_level 341 250 :=
  ⟨(calculate_water_level_eq 341 100 (by norm_num) (by norm_num)).1,
   (calculate_water_level_eq 341 100 (by norm_num) (by norm_num)).2 250 (by norm_num)⟩

/-- **C5.** For every `rainfall ≥ 0` and every soil class, the runoff is
between `0` and `rainfall`. -/
theorem calculate_runoff_bounds (rainfall : ℚ) (soil_type : String)
    (h : 0 ≤ rainfall) :
    0 ≤ calculate_runoff rainfall soil_type ∧
      calculate_runoff rainfall soil_type ≤ rainfall := by
  have hs := retention_pos soil_type
  revert hs
  simp only [calculate_runoff]
  generalize (25400 / curve_number soil_type - 254 : ℚ) = s
  intro hs
  split_ifs with hb
  · exact ⟨le_refl 0, h⟩
  · push_neg at hb
    have hx : 0 < rainfall - 0.2 * s := by linarith
    have hd : 0 < rainfall - 0.2 * s + s := by linarith
    have hp : (0:ℚ) < 0.2 * s := by linarith
    refine ⟨by positivity, ?_⟩
    rw [div_le_iff₀ hd]
    nlinarith [mul_lt_mul_of_pos_right hb hp,
      mul_nonneg (show (0:ℚ) ≤ rainfall by linarith) hs.le]

/-- Witness for C5 at rainfall 450 on medium soil. -/
theorem calculate_runoff_bounds_w :
    0 ≤ calculate_runoff 450 "medium" ∧ calculate_runoff 450 "medium" ≤ 450 :=
  calculate_runoff_bounds 450 "medium" (by norm_num)

/-- **C6.** For a fixed soil class, `calculate_runoff` is monotonically
non-decreasing in rainfall. -/
theorem calculate_runoff_mono (soil_type : String) (r1 r2 : ℚ) (h0 : 0 ≤ r1)
    (h12 : r1 ≤ r2) :
    calculate_runoff r1 soil_type ≤ calculate_runoff r2 soil_type := by
  have hs := retention_pos soil_type
  revert hs
  simp only [calculate_runoff]
  generalize (25400 / curve_number soil_type - 254 : ℚ) = s
  intro hs
  split_ifs with hb1 hb2 hb2
  · exact le_refl 0
  · push_neg at hb2
    have hd : 0 < r2 - 0.2 * s + s := by linarith
    have hx : 0 < r2 - 0.2 * s := by linarith
    positivity
  · push_neg at hb1
    linarith
  · push_neg at hb1 hb2
    have ha : 0 < r1 - 0.2 * s := by linarith
    have hb : 0 < r2 - 0.2 * s := by linarith
    have hd1 : 0 < r1 - 0.2 * s + s := by linarith
    have hd2 : 0 < r2 - 0.2 * s + s := by linarith
    rw [div_le_div_iff₀ hd1 hd2]
    nlinarith [mul_nonneg (mul_nonneg ha.le hb.le) (sub_nonneg.mpr h12),
      mul_nonneg (mul_nonneg hs.le (sub_nonneg.mpr h12)) (add_pos ha hb).le]

/-- Witness for C6 at rainfall 100 ≤ 450 on high soil. -/
theorem calculate_runoff_mono_w :
    calculate_runoff 100 "high" ≤ calculate_runoff 450 "high" :=
  calculate_runoff_mono "high" 100 450 (by norm_num) (by norm_num)

/-- **C3.** `classify_flood_risk` evaluates the four tiers in order Extreme,
High, Medium, Low with first match winning, each tier triggered when depth OR
rainfall exceeds its threshold; in particular `classify_risk 0 0 = (LOW, 1)`,
`classify_risk 5 0 = (EXTREME, 4)` and `classify_risk 0 600 = (EXTREME, 4)`. -/
theorem classify_flood_risk_tiers :
    (∀ w r : ℚ, (4 < w ∨ 500 < r) →
      classify_flood_risk w r = ("EXTREME", 4)) ∧
    (∀ w r : ℚ, ¬(4 < w ∨ 500 < r) → (2.5 < w ∨ 350 < r) →
      classify_flood_risk w r = ("HIGH", 3)) ∧
    (∀ w r : ℚ, ¬(4 < w ∨ 500 < r) → ¬(2.5 < w ∨ 350 < r) →
      (1.5 < w ∨ 200 < r) → classify_flood_risk w r = ("MEDIUM", 2)) ∧
    (∀ w r : ℚ, ¬(4 < w ∨ 500 < r) → ¬(2.5 < w ∨ 350 < r) →
      ¬(1.5 < w ∨ 200 < r) → classify_flood_risk w r = ("LOW", 1)) ∧
    classify_flood_risk 0 0 = ("LOW", 1) ∧
    classify_flood_risk 5 0 = ("EXTREME", 4) ∧
    classify_flood_risk 0 600 = ("EXTREME", 4) := by
  refine ⟨?_, ?_, ?_, ?_,
    by simp only [classify_flood_risk]; norm_num,
    by simp only [classify_flood_risk]; norm_num,
    by simp only [classify_flood_risk]; norm_num⟩ <;>
    intro w r <;> intros <;> simp only [classify_flood_risk] <;>
      split_ifs <;> try rfl
  all_goals exfalso
  all_goals norm_num at *
  all_goals casesm* _ ∨ _, _ ∧ _ <;> linarith

/-- Witness for C3: the Medium tier at a concrete depth-triggered input. -/
theorem classify_flood_risk_tiers_w :
    classify_flood_risk 2 0 = ("MEDIUM", 2) :=
  classify_flood_risk_tiers.2.2.1 2 0 (by norm_num) (by norm_num)
    (by norm_num)

/-- **C10.** `classify_flood_risk` is a total function (the Python `if/elif`
chain has no raising path), and every input with `water_level ≤ 1.5` and
`rainfall ≤ 200` — including negative values of either argument — falls
through every tier to `("LOW", 1)`. -/
theorem classify_flood_risk_low_default (water_level rainfall : ℚ)
    (hw : water_level ≤ 1.5) (hr : rainfall ≤ 200) :
    classify_flood_risk water_level rainfall = ("LOW", 1) := by
  have h1 : ¬((4.0:ℚ) < water_level ∨ (500:ℚ) < rainfall) := by
    push_neg
    norm_num at hw ⊢
    constructor <;> linarith
  have h2 : ¬((2.5:ℚ) < water_level ∨ (350:ℚ) < rainfall) := by
    push_neg
    norm_num at hw ⊢
    constructor <;> linarith
  have h3 : ¬((1.5:ℚ) < water_level ∨ (200:ℚ) < rainfall) := by
    push_neg
    norm_num at hw ⊢
    constructor <;> linarith
  simp only [classify_flood_risk, if_neg h1, if_neg h2, if_neg h3]

/-- Witness for C10 at negative inputs. -/
theorem classify_flood_risk_low_default_w :
    classify_flood_risk (-3) (-10) = ("LOW", 1) :=
  classify_flood_risk_low_default (-3) (-10) (by norm_num) (by norm_num)

/-- **C7 counterexample.** The claim says `calculate_runoff` fails with an
`InvalidInput` error for every `rainfall < 0`. The source performs no
validation and has no raising path at all: at `rainfall = -5` (medium soil)
it returns the ordinary value `0.0` (the `rainfall ≤ Ia` branch), not an
error. -/
theorem calculate_runoff_negative_cx : calculate_runoff (-5) "medium" = 0 := by
  simp [calculate_runoff, curve_number]
  norm_num

/-- **C7 amended.** `calculate_runoff` performs no input validation and never
raises: it is total, and for every `rainfall < 0` (any soil class) it returns
`0` through the `rainfall ≤ Ia` branch. -/
theorem calculate_runoff_no_validation (rainfall : ℚ) (soil_type : String)
    (h : rainfall < 0) : calculate_runoff rainfall soil_type = 0 := by
  have hs := retention_pos soil_type
  revert hs
  simp only [calculate_runoff]
  generalize (25400 / curve_number soil_type - 254 : ℚ) = s
  intro hs
  rw [if_pos (show rainfall ≤ 0.2 * s by linarith)]

/-- Witness for C7 at rainfall −7 with an unrecognized soil string. -/
theorem calculate_runoff_no_validation_w :
    calculate_runoff (-7) "loam" = 0 :=
  calculate_runoff_no_validation (-7) "loam" (by norm_num)

/-- **C2.** For every `rainfall ≥ 0`, integer `duration_hours ≥ 1` and
per-hour noise draws in `[-0.1, 0.1]`, `simulate_flood_progression` returns
(normally) a sequence of length exactly `duration_hours + 1` whose elements
are all non-negative. -/
theorem simulate_flood_progression_len_nonneg (rainfall : ℝ) (d : ℤ)
    (noise : ℕ → ℝ) (hr : 0 ≤ rainfall) (hd : 1 ≤ d)
    (hn : ∀ i, -(1/10) ≤ noise i ∧ noise i ≤ 1/10) :
    simulate_flood_progression rainfall d noise =
        Except.ok (progression_levels rainfall d noise) ∧
      (progression_levels rainfall d noise).length = d.toNat + 1 ∧
      ∀ x ∈ progression_levels rainfall d noise, 0 ≤ x := by
  refine ⟨?_, ?_, ?_⟩
  · simp only [simulate_flood_progression]
    rw [if_neg (by omega : d ≠ 0)]
  · simp only [progression_levels, List.length_map, List.length_range]
    omega
  · intro x hx
    simp only [progression_levels, List.mem_map] at hx
    obtain ⟨hour, _, rfl⟩ := hx
    simp only [flood_level_at]
    exact le_max_left 0 _

/-- Witness for C2 at rainfall 450 over 2 hours with zero noise. -/
theorem simulate_flood_progression_len_nonneg_w :
    simulate_flood_progression 450 2 (fun _ => 0) =
        Except.ok (progression_levels 450 2 (fun _ => 0)) ∧
      (progression_levels 450 2 (fun _ => 0)).length = (2 : ℤ).toNat + 1 ∧
      ∀ x ∈ progression_levels 450 2 (fun _ => 0), 0 ≤ x :=
  simulate_flood_progression_len_nonneg 450 2 (fun _ => 0) (by norm_num)
    (by norm_num) (fun i => by norm_num)

/-- **C9.** `simulate_flood_progression` is deterministic given the random
source: the output depends only on the inputs and on the draws actually
consumed (one per hour `0 .. duration_hours`), so two invocations with
identical inputs and identical draws produce element-for-element equal
sequences. -/
theorem simulate_flood_progression_deterministic (rainfall : ℝ) (d : ℤ)
    (n1 n2 : ℕ → ℝ) (hr : 0 ≤ rainfall) (hd : 1 ≤ d)
    (hn : ∀ i, i < (d + 1).toNat → n1 i = n2 i) :
    simulate_flood_progression rainfall d n1 =
      simulate_flood_progression rainfall d n2 := by
  simp only [simulate_flood_progression, progression_levels]
  rw [if_neg (by omega : d ≠ 0), if_neg (by omega : d ≠ 0)]
  congr 1
  apply List.map_congr_left
  intro hour hmem
  have hlt : hour < (d + 1).toNat := List.mem_range.mp hmem
  simp only [flood_level_at, hn hour hlt]

/-- Witness for C9 at rainfall 450 over 2 hours with equal zero draws. -/
theorem simulate_flood_progression_deterministic_w :
    simulate_flood_progression 450 2 (fun _ => 0) =
      simulate_flood_progression 450 2 (fun _ => 0) :=
  simulate_flood_progression_deterministic 450 2 (fun _ => 0) (fun _ => 0)
    (by norm_num) (by norm_num) (fun i _ => rfl)

/-- **C8 counterexample.** The claim says `simulate_flood_progression` fails
with an `InvalidInput` error when `rainfall < 0`. The source performs no
validation: at `rainfall = -100`, `duration_hours = 1` (any draws; zero draws
shown) it returns normally — every negative level is clamped to `0` by
`max(0, level)`, giving the ordinary value `[0, 0]`. -/
theorem simulate_flood_progression_negative_cx :
    simulate_flood_progression (-100) 1 (fun _ => 0) = Except.ok [0, 0] := by
  have h0 : flood_level_at (-100) 1 (fun _ => 0) 0 = 0 := by
    simp only [flood_level_at]
    norm_num [Real.zero_rpow]
  have h1 : flood_level_at (-100) 1 (fun _ => 0) 1 = 0 := by
    simp only [flood_level_at]
    norm_num
  simp only [simulate_flood_progression]
  rw [if_neg (by norm_num : (1:ℤ) ≠ 0)]
  simp only [progression_levels]
  rw [show Int.toNat (1 + 1) = 2 from rfl, show List.range 2 = [0, 1] from rfl]
  simp [h0, h1]

/-- **C8 amended.** `simulate_flood_progression` performs no `InvalidInput`
validation: it returns normally for every rainfall (negative included)
whenever `duration_hours ≥ 1`; at `duration_hours = 0` it fails with Python's
`ZeroDivisionError` (from `hour / duration_hours`), not `InvalidInput`; and
for `duration_hours < 0` it returns the empty list normally (the loop body
never runs). -/
theorem simulate_flood_progression_no_validation :
    (∀ (r : ℝ) (d : ℤ) (n : ℕ → ℝ), 1 ≤ d →
      simulate_flood_progression r d n =
        Except.ok (progression_levels r d n)) ∧
    (∀ (r : ℝ) (n : ℕ → ℝ),
      simulate_flood_progression r 0 n = Except.error "ZeroDivisionError") ∧
    (∀ (r : ℝ) (d : ℤ) (n : ℕ → ℝ), d < 0 →
      simulate_flood_progression r d n = Except.ok []) := by
  refine ⟨?_, ?_, ?_⟩
  · intro r d n hd
    simp only [simulate_flood_progression]
    rw [if_neg (by omega : d ≠ 0)]
  · intro r n
    simp [simulate_flood_progression]
  · intro r d n hd
    simp only [simulate_flood_progression, progression_levels]
    rw [if_neg (by omega : d ≠ 0), show (d + 1).toNat = 0 by omega]
    rfl

/-- Witness for the amended C8: all three behaviours at concrete inputs. -/
theorem simulate_flood_progression_no_validation_w :
    simulate_flood_progression 450 2 (fun _ => 0) =
        Except.ok (progression_levels 450 2 (fun _ => 0)) ∧
      simulate_flood_progression 450 0 (fun _ => 0) =
        Except.error "ZeroDivisionError" ∧
      simulate_flood_progression 450 (-2) (fun _ => 0) = Except.ok [] :=
  ⟨simulate_flood_progression_no_validation.1 450 2 (fun _ => 0) (by norm_num),
   simulate_flood_progression_no_validation.2.1 450 (fun _ => 0),
   simulate_flood_progression_no_validation.2.2 450 (-2) (fun _ => 0)
     (by norm_num)⟩
